import Mathlib

/-!
Verification of the glTF loader core (`Source/_gltf2usd/gltf2loader.py`):
a shallow embedding of the binary-container demuxer, the accessor decoder
`get_data`, and scene initialization, together with theorems about the
claims of the specification.

Conventions of the embedding:
* Byte strings are `List Nat` (each element a byte value `0..255`).
* Python floats are idealized as exact rationals `ℚ`; the IEEE-754 binary32
  payloads read by `struct.unpack('f', ...)` are decoded exactly, with the
  non-finite bit patterns kept as explicit `posInf`/`negInf`/`nan` values.
* Python exceptions become an explicit error type `Err`; each constructor
  records which raise site of the source it embeds.
* The filesystem visible under the loader's root directory is an explicit
  association list `files : List (String × List Nat)`; the JSON parser used
  on the container's JSON chunk (`json.loads`) is a parameter of the demuxer.
-/

namespace Gltf

/-- Byte strings: lists of byte values. -/
abbrev Bytes := List Nat

/-- The little-endian integer value of a byte string
(`np.frombuffer(..., dtype='uint32')` and `struct.unpack` on `B`/`H`/`I`
read this value from 4-, 1-, 2-, 4-byte windows respectively). -/
def leVal : Bytes → Nat
  | [] => 0
  | b :: bs => b + 256 * leVal bs

/-- The four little-endian bytes of a 32-bit value (used to build concrete
binary containers in theorems and witnesses). -/
def enc32 (n : Nat) : Bytes :=
  [n % 256, n / 256 % 256, n / 65536 % 256, n / 16777216 % 256]

/-- Python exceptions raised by the loader, one constructor per raise site. -/
inductive Err where
  /-- `KeyError` from a dict lookup (the missing key is recorded). -/
  | keyError (k : String)
  /-- `IndexError` from a list index out of range. -/
  | indexError
  /-- `AttributeError`: an instance attribute that was never assigned. -/
  | attributeError (k : String)
  /-- `ValueError` from an `Enum` constructor applied to an unrecognized value. -/
  | badEnumValue (enumName : String)
  /-- `Exception('unsupported accessor component type!')` in `get_data`. -/
  | unsupportedComponentType
  /-- `NotImplementedError` when the glb version is not 2. -/
  | unsupportedVersion
  /-- `ValueError` when the total bytes read disagree with the declared size. -/
  | truncatedContainer
  /-- `ValueError` from `np.frombuffer` on a header shorter than expected. -/
  | frombufferError
  /-- `TypeError('Invalid chunk type: ...')` on an unrecognized chunk tag. -/
  | invalidChunkType
  /-- `ValueError` from `json.loads` on a malformed JSON chunk. -/
  | jsonDecodeError
  /-- `struct.error` from `struct.unpack` on a window of the wrong length. -/
  | structError
  /-- `IOError` opening a buffer file that does not exist. -/
  | fileNotFound
  /-- `binascii.Error` from `base64.b64decode` on malformed base64. -/
  | base64Error
  /-- `ValueError` from `str.index` when a data URI has no comma. -/
  | noComma
  /-- The buffer's `data` entry is absent (or was bound to `None`), so the
  binary decode path has no bytes to read. -/
  | dataUnavailable
deriving DecidableEq, Repr

/-- A decoded numeric component: Python floats idealized as exact rationals,
with the IEEE-754 non-finite values kept explicit. -/
inductive GNum where
  | num (q : ℚ)
  | posInf
  | negInf
  | nan
deriving DecidableEq, Repr

/-- Division of a decoded component by a (positive) normalization divisor,
matching Python float division: finite values divide, non-finite values are
unchanged (the divisors used are 1, 255 and 65535). -/
def GNum.divQ : GNum → ℚ → GNum
  | .num q, d => .num (q / d)
  | .posInf, _ => .posInf
  | .negInf, _ => .negInf
  | .nan, _ => .nan

/-- Exact value of an IEEE-754 binary32 bit pattern, as produced by
`struct.unpack('f', window)` on the little-endian 32-bit integer `n`. -/
def decodeF32 (n : Nat) : GNum :=
  let s : ℕ := n / 2 ^ 31 % 2
  let e : ℕ := n / 2 ^ 23 % 2 ^ 8
  let m : ℕ := n % 2 ^ 23
  if e = 255 then
    if m = 0 then (if s = 1 then .negInf else .posInf) else .nan
  else if e = 0 then
    .num ((if s = 1 then -1 else 1) * (m : ℚ) / 2 ^ 149)
  else
    .num ((if s = 1 then -1 else 1) * (((2 ^ 23 + m) * 2 ^ (e - 1) : ℕ) : ℚ) / 2 ^ 149)

/-- A decoded accessor entry: a bare number for scalar accessors, an ordered
tuple of components otherwise. -/
inductive Entry where
  | scalar (v : GNum)
  | tuple (vs : List GNum)
deriving DecidableEq, Repr

/-- The `AccessorType` enumeration of the source. -/
inductive AccessorType where
  | SCALAR | VEC2 | VEC3 | VEC4 | MAT2 | MAT3 | MAT4
deriving DecidableEq, Repr

/-- `AccessorType(accessor['type'])`: the enum constructor, `none` when the
string names no member (a `ValueError` in Python). -/
def AccessorType.ofString : String → Option AccessorType
  | "SCALAR" => some .SCALAR
  | "VEC2" => some .VEC2
  | "VEC3" => some .VEC3
  | "VEC4" => some .VEC4
  | "MAT2" => some .MAT2
  | "MAT3" => some .MAT3
  | "MAT4" => some .MAT4
  | _ => none

/-- The source's `accessor_type_count` dispatch table. -/
def accessor_type_count : AccessorType → Nat
  | .SCALAR => 1
  | .VEC2 => 2
  | .VEC3 => 3
  | .VEC4 => 4
  | .MAT2 => 4
  | .MAT3 => 9
  | .MAT4 => 16

/-- The `AccessorComponentType` enumeration of the source. -/
inductive AccessorComponentType where
  | BYTE | UNSIGNED_BYTE | SHORT | UNSIGNED_SHORT | UNSIGNED_INT | FLOAT
deriving DecidableEq, Repr

/-- `AccessorComponentType(accessor['componentType'])`: the enum constructor,
`none` when the code names no member (a `ValueError` in Python). -/
def AccessorComponentType.ofCode : Nat → Option AccessorComponentType
  | 5120 => some .BYTE
  | 5121 => some .UNSIGNED_BYTE
  | 5122 => some .SHORT
  | 5123 => some .UNSIGNED_SHORT
  | 5125 => some .UNSIGNED_INT
  | 5126 => some .FLOAT
  | _ => none

/-- The source's `accessor_component_type_bytesize` dispatch table. -/
def accessor_component_type_bytesize : AccessorComponentType → Nat
  | .BYTE => 1
  | .UNSIGNED_BYTE => 1
  | .SHORT => 2
  | .UNSIGNED_SHORT => 2
  | .UNSIGNED_INT => 4
  | .FLOAT => 4

/-- The `struct` format characters used by `get_data` (`f`, `I`, `H`, `B`). -/
inductive DType where
  | f | I | H | B
deriving DecidableEq, Repr

/-- `struct.calcsize` of each format character. -/
def structSize : DType → Nat
  | .f => 4
  | .I => 4
  | .H => 2
  | .B => 1

/-- The value `struct.unpack(dt, w)[0]` yields on a window of the correct
length: the little-endian integer for `B`/`H`/`I`, the binary32 value for `f`. -/
def rawValue (dt : DType) (w : Bytes) : GNum :=
  match dt with
  | .f => decodeF32 (leVal w)
  | _ => .num (leVal w)

/-- `struct.unpack(dt, w)[0]`: requires the window to have exactly
`struct.calcsize(dt)` bytes, raising `struct.error` otherwise. -/
def structUnpack (dt : DType) (w : Bytes) : Except Err GNum :=
  if w.length = structSize dt then .ok (rawValue dt w) else .error .structError

/-- A glTF accessor object, with the fields `get_data` reads
(`none` models an absent JSON key). -/
structure Accessor where
  bufferView : Nat
  byteOffset : Option Nat
  componentType : Nat
  type : String
  count : Nat
  normalized : Option Bool
deriving DecidableEq, Repr

/-- A glTF bufferView object, with the fields the loader reads. -/
structure BufferView where
  buffer : Nat
  byteOffset : Option Nat
  byteLength : Nat
  byteStride : Option Nat
deriving DecidableEq, Repr

/-- A glTF buffer object: `data` is the `'data'` entry the binary demuxer
binds (absent before binding, and conflating Python's unset key with a key
bound to `None` — both make the binary decode path fail). -/
structure Buffer where
  byteLength : Nat
  uri : Option String
  data : Option Bytes
deriving DecidableEq, Repr

/-- A glTF scene JSON entry (its node indices; opaque to the loader core). -/
structure SceneEntry where
  nodes : List Nat
deriving DecidableEq, Repr

/-- The `Scene` object built by `_initialize_scenes`:
`Scene(scene_entry, index, nodes)`. -/
structure Scene where
  index : Nat
  entry : SceneEntry
deriving DecidableEq, Repr

/-- The parsed JSON document, restricted to the top-level keys the loader
consumes; `none` models an absent key (the source tests membership with
`'key' in self.json_data` or indexes directly). The sections whose element
structure the core never inspects are kept as opaque lists. -/
structure JsonData where
  asset : Option Nat := none
  images : Option (List Nat) := none
  materials : Option (List Nat) := none
  meshes : Option (List Nat) := none
  nodes : Option (List Nat) := none
  skins : Option (List Nat) := none
  scenes : Option (List SceneEntry) := none
  scene : Option Nat := none
  animations : Option (List Nat) := none
  buffers : Option (List Buffer) := none
  bufferViews : Option (List BufferView) := none
deriving DecidableEq, Repr

/-- The loader's state after construction: the parsed document, the
per-accessor decoded-data cache, the assembled collections, and the
filesystem environment used to resolve relative buffer URIs. -/
structure Loader where
  root_dir : String
  json_data : JsonData
  binary : Bool
  accessor_data_map : List (Nat × List Entry)
  asset : Option Nat := none
  images : List Nat := []
  materials : List Nat := []
  meshes : List Nat := []
  nodes : List Nat := []
  skins : List Nat := []
  scenes : List Scene := []
  main_scene : Option Scene := none
  animations : List Nat := []
  files : List (String × Bytes) := []
deriving DecidableEq, Repr

/-- First-match association-list lookup (Python dict lookup, where the demuxer
and cache only ever add fresh keys). -/
def lookupA {κ α : Type} [DecidableEq κ] : List (κ × α) → κ → Option α
  | [], _ => none
  | (k', v) :: rest, k => if k' = k then some v else lookupA rest k

/-- The base64 value of one alphabet character. -/
def b64val (c : Char) : Option Nat :=
  if 'A' ≤ c ∧ c ≤ 'Z' then some (c.toNat - 65)
  else if 'a' ≤ c ∧ c ≤ 'z' then some (c.toNat - 97 + 26)
  else if '0' ≤ c ∧ c ≤ '9' then some (c.toNat - 48 + 52)
  else if c = '+' then some 62
  else if c = '/' then some 63
  else none

/-- The bytes encoded by one base64 quantum of 2, 3 or 4 values. -/
def b64group : List Nat → Bytes
  | [a, b] => [(a * 4 + b / 16) % 256]
  | [a, b, c] => [(a * 4 + b / 16) % 256, (b % 16 * 16 + c / 4) % 256]
  | [a, b, c, d] =>
      [(a * 4 + b / 16) % 256, (b % 16 * 16 + c / 4) % 256, (c % 4 * 64 + d) % 256]
  | _ => []

/-- Decode the 4-character groups of a base64 string (padding `=` only at the
end), `none` on malformed input. -/
def b64chunks : List Char → Option Bytes
  | [] => some []
  | a :: b :: c :: d :: rest =>
    match b64val a, b64val b with
    | some va, some vb =>
      if c = '=' then
        if d = '=' ∧ rest = [] then some (b64group [va, vb]) else none
      else
        match b64val c with
        | some vc =>
          if d = '=' then
            if rest = [] then some (b64group [va, vb, vc]) else none
          else
            match b64val d with
            | some vd => (b64chunks rest).map (fun bs => b64group [va, vb, vc, vd] ++ bs)
            | none => none
        | none => none
    | _, _ => none
  | _ => none

/-- `base64.b64decode` as the source uses it: characters outside the alphabet
are discarded, then the 4-character quanta are decoded; `none` models the
`binascii.Error` raised on malformed input. -/
def b64decode (s : String) : Option Bytes :=
  let cs := s.data.filter (fun c => (b64val c).isSome || c = '=')
  if cs.length % 4 = 0 then b64chunks cs else none

/-- The regular-expression test `re.match(r'^data:.*?;base64,', uri)`:
a `data:` prefix followed somewhere by `;base64,`. -/
def matchesDataUri (s : String) : Bool :=
  s.startsWith "data:" && !(((s.drop 5).splitOn ";base64,").length == 1)

/-- `os.path.join(dir, s)` for the cases the loader exercises. -/
def joinPath (dir s : String) : String :=
  if dir = "" then s else dir ++ "/" ++ s

/-- Buffer-byte resolution of `get_data` (source lines 323-343): the binary
path slices the bound chunk data from the view's `byteOffset`; the text path
first requires the buffer's `uri` (a `KeyError` when absent), then either
base64-decodes an inline data URI or reads `byteLength` bytes of the local
file at the view's `byteOffset`. -/
def resolveBufferData (l : Loader) (bufferview : BufferView) (buffer : Buffer) :
    Except Err Bytes :=
  if l.binary then
    match buffer.data with
    | none => .error .dataUnavailable
    | some bs =>
      .ok (match bufferview.byteOffset with
           | some o => bs.drop o
           | none => bs)
  else
    match buffer.uri with
    | none => .error (.keyError "uri")
    | some uri =>
      if matchesDataUri uri then
        match (uri.splitOn ",").get? 1 with
        | none => .error .indexError
        | some uri_data =>
          match b64decode uri_data with
          | none => .error .base64Error
          | some bs =>
            .ok (match bufferview.byteOffset with
                 | some o => bs.drop o
                 | none => bs)
      else
        match lookupA l.files (joinPath l.root_dir uri) with
        | none => .error .fileNotFound
        | some fileBytes =>
          .ok ((match bufferview.byteOffset with
                | some o => fileBytes.drop o
                | none => fileBytes).take bufferview.byteLength)

/-- The `normalized` test of `get_data`:
`'normalized' in accessor and accessor['normalized'] == True`. -/
def isNormalized (a : Accessor) : Bool :=
  match a.normalized with
  | some true => true
  | _ => false

/-- The `if`/`elif` chain of `get_data` (source lines 355-373) choosing the
`struct` format character, its byte size and the normalization divisor;
`none` for the `else` branch raising on `BYTE`/`SHORT`. -/
def componentFmt (act : AccessorComponentType) (normalized : Bool) :
    Option (DType × Nat × ℚ) :=
  match act with
  | .FLOAT => some (.f, 4, 1)
  | .UNSIGNED_INT => some (.I, 4, 1)
  | .UNSIGNED_SHORT => some (.H, 2, if normalized then 65535 else 1)
  | .UNSIGNED_BYTE => some (.B, 1, if normalized then 255 else 1)
  | _ => none

/-- The inner component loop of `get_data` (`for j in range(...)`): for each
`j`, slice the window `buffer_data[x : x + data_type_size]` at
`x = offset + j * accessor_component_type_size`, unpack it, and divide by the
normalization divisor; the first short window raises `struct.error`. -/
def decodeComponents (bd : Bytes) (dt : DType) (dsize csize : Nat) (dvsr : ℚ)
    (offset : Nat) : List Nat → Except Err (List GNum)
  | [] => .ok []
  | j :: js => do
    let w := (bd.drop (offset + j * csize)).take dsize
    let v ← structUnpack dt w
    let rest ← decodeComponents bd dt dsize csize dvsr offset js
    pure (v.divQ dvsr :: rest)

/-- The outer entry loop of `get_data` (`for i in range(0, accessor['count'])`):
decode one entry's components, emit a bare number when there is one component
and an ordered tuple otherwise (`entries[0]` on an empty list is an
`IndexError`), then advance the offset by the stride. -/
def decodeLoop (bd : Bytes) (dt : DType) (dsize csize tsize stride : Nat)
    (dvsr : ℚ) : Nat → Nat → Except Err (List Entry)
  | _, 0 => .ok []
  | offset, n + 1 => do
    let comps ← decodeComponents bd dt dsize csize dvsr offset (List.range tsize)
    let entry ←
      match comps with
      | [] => Except.error Err.indexError
      | [v] => Except.ok (Entry.scalar v)
      | vs => Except.ok (Entry.tuple vs)
    let rest ← decodeLoop bd dt dsize csize tsize stride dvsr (offset + stride) n
    pure (entry :: rest)

/-- The effective stride (source lines 351-352):
`int(bufferview['byteStride']) if ('byteStride' in bufferview) else
(accessor_type_size * accessor_component_type_size)`. -/
def effectiveStride (bv : BufferView) (tsize csize : Nat) : Nat :=
  match bv.byteStride with
  | some s => s
  | none => tsize * csize

/-- The starting offset (source line 353):
`int(accessor['byteOffset']) if 'byteOffset' in accessor else 0`. -/
def accessorOffset (a : Accessor) : Nat :=
  match a.byteOffset with
  | some o => o
  | none => 0

/-- `GLTF2Loader.get_data` (source lines 316-389): return the cached sequence
when the accessor index was decoded before; otherwise resolve the buffer view
and buffer, resolve the buffer bytes, compute stride/offset/format, decode
`count` entries, and cache the result under the accessor index. -/
def get_data (l : Loader) (accessor : Accessor) (accessor_index : Nat) :
    Except Err (Loader × List Entry) :=
  match lookupA l.accessor_data_map accessor_index with
  | some d => .ok (l, d)
  | none =>
    match l.json_data.bufferViews with
    | none => .error (.keyError "bufferViews")
    | some bufferViews =>
    match bufferViews.get? accessor.bufferView with
    | none => .error .indexError
    | some bufferview =>
    match l.json_data.buffers with
    | none => .error (.keyError "buffers")
    | some buffers =>
    match buffers.get? bufferview.buffer with
    | none => .error .indexError
    | some buffer =>
    match AccessorType.ofString accessor.type with
    | none => .error (.badEnumValue "AccessorType")
    | some accessor_type =>
    match resolveBufferData l bufferview buffer with
    | .error e => .error e
    | .ok buffer_data =>
    match AccessorComponentType.ofCode accessor.componentType with
    | none => .error (.badEnumValue "AccessorComponentType")
    | some accessor_component_type =>
      let accessor_type_size := accessor_type_count accessor_type
      let accessor_component_type_size :=
        accessor_component_type_bytesize accessor_component_type
      let bytestride := effectiveStride bufferview accessor_type_size accessor_component_type_size
      let offset := accessorOffset accessor
      match componentFmt accessor_component_type (isNormalized accessor) with
      | none => .error .unsupportedComponentType
      | some (data_type, data_type_size, normalize_divisor) =>
        match decodeLoop buffer_data data_type data_type_size
            accessor_component_type_size accessor_type_size bytestride
            normalize_divisor offset accessor.count with
        | .error e => .error e
        | .ok data_arr =>
          .ok ({ l with accessor_data_map := l.accessor_data_map ++ [(accessor_index, data_arr)] }, data_arr)

/-- The scene objects of `_initialize_scenes`:
`for i, scene_entry in enumerate(...): Scene(scene_entry, i, nodes)`. -/
def mkScenes (i : Nat) : List SceneEntry → List Scene
  | [] => []
  | e :: es => Scene.mk i e :: mkScenes (i + 1) es

/-- `GLTF2Loader._initialize_scenes` (source lines 233-244): build the scene
list, then bind the main scene to `scenes[json['scene']]` when the `scene` key
is present, else to `scenes[0]`; both indexings can raise `IndexError`.
With no `scenes` key both collections stay empty/none. -/
def initialize_scenes (j : JsonData) : Except Err (List Scene × Option Scene) :=
  match j.scenes with
  | none => .ok ([], none)
  | some entries =>
    let scenes := mkScenes 0 entries
    match j.scene with
    | some s =>
      match scenes.get? s with
      | some sc => .ok (scenes, some sc)
      | none => .error .indexError
    | none =>
      match scenes.get? 0 with
      | some sc => .ok (scenes, some sc)
      | none => .error .indexError

/-- `GLTF2Loader.get_main_scene`. -/
def get_main_scene (l : Loader) : Option Scene :=
  l.main_scene

/-- The magic constant of the binary container header. -/
def MAGIC : Nat := 0x46546C67

/-- The JSON chunk type tag. -/
def JSON_CHUNK : Nat := 0x4E4F534A

/-- The binary chunk type tag. -/
def BINARY_CHUNK : Nat := 0x004E4942

/-- `load_uri` (source lines 98-112). The HTTP branch performs a network
fetch, which is outside this embedding; it is modelled as the source's
failed-fetch outcome (a logged warning and no data). Local paths are looked
up in the explicit filesystem environment. -/
def load_uri (files : List (String × Bytes)) (s : String) (folder : String) :
    Except Err (Option Bytes) :=
  if s.startsWith "data:" then
    let parts := s.splitOn ","
    match parts with
    | [] => .error .noComma
    | [_] => .error .noComma
    | _ :: rest =>
      match b64decode (String.intercalate "," rest) with
      | none => .error .base64Error
      | some bs => .ok (some bs)
  else if s.startsWith "http" then
    .ok none
  else
    match lookupA files (joinPath folder s) with
    | none => .error .fileNotFound
    | some bs => .ok (some bs)

/-- The binary-chunk handler of the demux loop (source lines 164-169): bind
the chunk's bytes (truncated to the declared `byteLength`) as the data of
`buffers[0]`, unless that buffer declares a truthy `uri`, which is resolved
instead. Requires `self.json_data` to exist already — an `AttributeError`
when the binary chunk precedes the JSON chunk. -/
def bindBinaryChunk (files : List (String × Bytes)) (root_dir : String)
    (st : Option JsonData) (chunk : Bytes) : Except Err (Option JsonData) :=
  match st with
  | none => .error (.attributeError "json_data")
  | some j =>
    match j.buffers with
    | none => .error (.keyError "buffers")
    | some bufs =>
      match bufs.get? 0 with
      | none => .error .indexError
      | some buffer =>
        if buffer.uri.getD "" ≠ "" then
          match load_uri files (buffer.uri.getD "") root_dir with
          | .error e => .error e
          | .ok dat =>
            let bufs' := bufs.set 0 { buffer with data := dat }
            .ok (some { j with buffers := some bufs' })
        else
          let bufs' := bufs.set 0 { buffer with data := some (chunk.take buffer.byteLength) }
          .ok (some { j with buffers := some bufs' })

/-- The chunk loop of the binary demuxer (source lines 151-171): read an
8-byte chunk header and the declared payload, dispatch on the chunk type tag,
and on exhaustion compare the accumulated byte count with the declared file
size, raising the truncation error on a mismatch. A nonempty remainder
shorter than 8 bytes makes `np.frombuffer` raise. The JSON parser
(`json.loads` on the UTF-8 chunk) is the parameter `parse`. -/
def demuxLoop (parse : Bytes → Option JsonData) (files : List (String × Bytes))
    (root_dir : String) (rem : Bytes) (total_bytes_read file_size : Nat)
    (st : Option JsonData) : Except Err (Option JsonData) :=
  if rem = [] then
    if total_bytes_read ≠ file_size then .error .truncatedContainer else .ok st
  else if rem.length < 8 then .error .frombufferError
  else
    let chunk_size := leVal (rem.take 4)
    let chunk_type := leVal ((rem.drop 4).take 4)
    let chunk := (rem.drop 8).take chunk_size
    let rest := (rem.drop 8).drop chunk_size
    let total' := total_bytes_read + 8 + chunk_size
    if chunk_type = JSON_CHUNK then
      match parse chunk with
      | none => .error .jsonDecodeError
      | some jd => demuxLoop parse files root_dir rest total' file_size (some jd)
    else if chunk_type = BINARY_CHUNK then
      match bindBinaryChunk files root_dir st chunk with
      | .error e => .error e
      | .ok st' => demuxLoop parse files root_dir rest total' file_size st'
    else .error .invalidChunkType
termination_by rem.length
decreasing_by
  all_goals simp only [List.length_drop]; omega

/-- The `.glb` branch of `GLTF2Loader.__init__` (source lines 137-172): read
the 12-byte header as three little-endian 32-bit words; when the magic word
matches, check the version and run the chunk loop. The source has no `else`
for the magic test: a mismatching magic skips demuxing entirely and the
constructor continues with no `json_data` bound. -/
def demuxGlb (parse : Bytes → Option JsonData) (files : List (String × Bytes))
    (root_dir : String) (bytes : Bytes) : Except Err (Option JsonData) :=
  if bytes.length < 12 then .error .frombufferError
  else
    let magic := leVal (bytes.take 4)
    let glb_version := leVal ((bytes.drop 4).take 4)
    let file_size := leVal ((bytes.drop 8).take 4)
    if magic = MAGIC then
      if glb_version ≠ 2 then .error .unsupportedVersion
      else demuxLoop parse files root_dir (bytes.drop 12) 12 file_size none
    else .ok none

/-- Construction from a `.glb` file up to the first step of `_initialize`:
after the demux phase, `_initialize_asset` reads `self.json_data`, which
raises `AttributeError` when the attribute was never assigned (the silent
bad-magic fallthrough). -/
def glbConstruct (parse : Bytes → Option JsonData) (files : List (String × Bytes))
    (root_dir : String) (bytes : Bytes) : Except Err JsonData :=
  match demuxGlb parse files root_dir bytes with
  | .error e => .error e
  | .ok none => .error (.attributeError "json_data")
  | .ok (some j) => .ok j

/-- One encoded chunk of a binary container, for assembling concrete inputs. -/
structure Chunk where
  ctype : Nat
  payload : Bytes
deriving DecidableEq, Repr

/-- The byte encoding of one chunk: length word, type word, payload. -/
def encodeChunk (c : Chunk) : Bytes :=
  enc32 c.payload.length ++ enc32 c.ctype ++ c.payload

/-- The byte encoding of a chunk sequence. -/
def encodeChunks : List Chunk → Bytes
  | [] => []
  | c :: cs => encodeChunk c ++ encodeChunks cs

/-- The bytes a chunk sequence occupies (8 bytes of header per chunk plus the
payload). -/
def chunksByteLen : List Chunk → Nat
  | [] => 0
  | c :: cs => 8 + c.payload.length + chunksByteLen cs

/-- A whole binary container: header `(MAGIC, 2, fsize)` then the chunks. -/
def mkGlb (fsize : Nat) (cs : List Chunk) : Bytes :=
  enc32 MAGIC ++ enc32 2 ++ enc32 fsize ++ encodeChunks cs

/-- The chunk dispatch of the demux loop, abstracted from byte arithmetic:
what processing a chunk sequence does to the demux state. -/
def runChunks (parse : Bytes → Option JsonData) (files : List (String × Bytes))
    (root_dir : String) : Option JsonData → List Chunk → Except Err (Option JsonData)
  | st, [] => .ok st
  | st, c :: cs =>
    if c.ctype = JSON_CHUNK then
      match parse c.payload with
      | none => .error .jsonDecodeError
      | some jd => runChunks parse files root_dir (some jd) cs
    else if c.ctype = BINARY_CHUNK then
      match bindBinaryChunk files root_dir st c.payload with
      | .error e => .error e
      | .ok st' => runChunks parse files root_dir st' cs
    else .error .invalidChunkType

theorem lookupA_append_other {κ α : Type} [DecidableEq κ] (m : List (κ × α)) (k j : κ) (v : α)
    (h : j ≠ k) : lookupA (m ++ [(k, v)]) j = lookupA m j := by
  induction m with
  | nil => simp [lookupA, h.symm]
  | cons p rest ih =>
    obtain ⟨k', v'⟩ := p
    by_cases hk : k' = j <;> simp [lookupA, hk, ih]

theorem lookupA_append_self {κ α : Type} [DecidableEq κ] (m : List (κ × α)) (k : κ) (v : α)
    (h : lookupA m k = none) : lookupA (m ++ [(k, v)]) k = some v := by
  induction m with
  | nil => simp [lookupA]
  | cons p rest ih =>
    obtain ⟨k', v'⟩ := p
    by_cases hk : k' = k
    · simp [lookupA, hk] at h
    · simp only [List.cons_append, lookupA, if_neg hk] at h ⊢
      exact ih h

theorem length_window (bd : Bytes) (x n : Nat) (h : x + n ≤ bd.length) :
    ((bd.drop x).take n).length = n := by
  simp [List.length_take, List.length_drop]
  omega

/-- Modelled from the claim (C1, spec §4.3 step 5): the component value the
spec formula prescribes at a byte position — the little-endian read of the
component's bytes (binary32 for FLOAT), divided by the normalization divisor. -/
def claimComponent (bd : Bytes) (dt : DType) (dsize : Nat) (dvsr : ℚ) (pos : Nat) : GNum :=
  (rawValue dt ((bd.drop pos).take dsize)).divQ dvsr

/-- Modelled from the claim (C1, spec §4.3 step 5): entry `i` collects, in
order, the components read at `byteOffset + i*stride + j*componentByteSize`;
a one-component (SCALAR) accessor yields the bare number, every other type an
ordered tuple preserving component order. -/
def claimEntries (bd : Bytes) (dt : DType) (dsize csize tsize stride : Nat)
    (dvsr : ℚ) (off count : Nat) : List Entry :=
  (List.range count).map (fun i =>
    match (List.range tsize).map
        (fun j => claimComponent bd dt dsize dvsr (off + i * stride + j * csize)) with
    | [v] => Entry.scalar v
    | vs => Entry.tuple vs)

theorem decodeComponents_eq (bd : Bytes) (dt : DType) (csize : Nat) (dvsr : ℚ)
    (offset : Nat) (js : List Nat)
    (h : ∀ j ∈ js, offset + j * csize + structSize dt ≤ bd.length) :
    decodeComponents bd dt (structSize dt) csize dvsr offset js =
      .ok (js.map fun j => claimComponent bd dt (structSize dt) dvsr (offset + j * csize)) := by
  induction js with
  | nil => simp [decodeComponents]
  | cons j js ih =>
    have hw : ((bd.drop (offset + j * csize)).take (structSize dt)).length = structSize dt :=
      length_window _ _ _ (h j (List.mem_cons_self _ _))
    have ih' := ih (fun j' hj' => h j' (List.mem_cons_of_mem _ hj'))
    simp only [decodeComponents, structUnpack, hw, if_pos, ih', claimComponent]
    rfl

theorem claimEntries_succ (bd : Bytes) (dt : DType) (dsize csize tsize stride : Nat)
    (dvsr : ℚ) (off n : Nat) :
    claimEntries bd dt dsize csize tsize stride dvsr off (n + 1) =
      (match (List.range tsize).map
          (fun j => claimComponent bd dt dsize dvsr (off + j * csize)) with
       | [v] => Entry.scalar v
       | vs => Entry.tuple vs) ::
      claimEntries bd dt dsize csize tsize stride dvsr (off + stride) n := by
  unfold claimEntries
  rw [List.range_succ_eq_map]
  simp only [List.map_cons, List.map_map]
  have hhead : (List.range tsize).map
      (fun j => claimComponent bd dt dsize dvsr (off + 0 * stride + j * csize)) =
      (List.range tsize).map (fun j => claimComponent bd dt dsize dvsr (off + j * csize)) :=
    List.map_congr_left (fun j _ => by norm_num)
  rw [hhead]
  congr 1
  apply List.map_congr_left
  intro i _
  have hinner : (List.range tsize).map
      (fun j => claimComponent bd dt dsize dvsr (off + (Nat.succ i) * stride + j * csize)) =
      (List.range tsize).map
      (fun j => claimComponent bd dt dsize dvsr (off + stride + i * stride + j * csize)) :=
    List.map_congr_left (fun j _ => by congr 1; simp only [Nat.succ_eq_add_one]; ring)
  simp only [Function.comp]
  rw [hinner]

theorem decodeLoop_eq (bd : Bytes) (dt : DType) (csize tsize stride : Nat) (dvsr : ℚ)
    (ht : 1 ≤ tsize) :
    ∀ (count offset : Nat),
      (∀ i < count, ∀ j < tsize,
        offset + i * stride + j * csize + structSize dt ≤ bd.length) →
      decodeLoop bd dt (structSize dt) csize tsize stride dvsr offset count =
        .ok (claimEntries bd dt (structSize dt) csize tsize stride dvsr offset count) := by
  intro count
  induction count with
  | zero => intro offset _; simp [decodeLoop, claimEntries]
  | succ n ih =>
    intro offset h
    have hcomps := decodeComponents_eq bd dt csize dvsr offset (List.range tsize)
      (fun j hj => by
        have := h 0 (Nat.succ_pos n) j (List.mem_range.mp hj)
        simpa using this)
    have hrest := ih (offset + stride)
      (fun i hi j hj => by
        have := h (i + 1) (Nat.succ_lt_succ hi) j hj
        have harith : offset + (i + 1) * stride = offset + stride + i * stride := by ring
        rw [harith] at this
        exact this)
    obtain ⟨t, rfl⟩ : ∃ t, tsize = t + 1 := ⟨tsize - 1, by omega⟩
    rw [claimEntries_succ]
    simp only [decodeLoop, hcomps, hrest]
    cases hL : (List.range (t + 1)).map
        (fun j => claimComponent bd dt (structSize dt) dvsr (offset + j * csize)) with
    | nil =>
      have := congrArg List.length hL
      simp at this
    | cons c cr => cases cr <;> rfl

theorem componentFmt_dsize {act : AccessorComponentType} {nm : Bool} {dt : DType}
    {ds : Nat} {dv : ℚ} (h : componentFmt act nm = some (dt, ds, dv)) :
    ds = structSize dt := by
  cases act <;> simp [componentFmt] at h <;> obtain ⟨rfl, rfl, -⟩ := h <;> rfl

theorem accessor_type_count_pos (aty : AccessorType) : 1 ≤ accessor_type_count aty := by
  cases aty <;> decide

/-- Modelled from the claim (C1): the normalization divisor — 255 for
normalized UNSIGNED_BYTE, 65535 for normalized UNSIGNED_SHORT, 1.0 otherwise. -/
def claimDivisor (act : AccessorComponentType) (normalized : Bool) : ℚ :=
  match act, normalized with
  | .UNSIGNED_BYTE, true => 255
  | .UNSIGNED_SHORT, true => 65535
  | _, _ => 1

theorem componentFmt_struct_bytesize {act : AccessorComponentType} {nm : Bool} {dt : DType}
    {ds : Nat} {dv : ℚ} (h : componentFmt act nm = some (dt, ds, dv)) :
    structSize dt = accessor_component_type_bytesize act := by
  cases act <;> simp [componentFmt] at h <;> obtain ⟨rfl, -, -⟩ := h <;> rfl

theorem componentFmt_divisor {act : AccessorComponentType} {nm : Bool} {dt : DType}
    {ds : Nat} {dv : ℚ} (h : componentFmt act nm = some (dt, ds, dv)) :
    dv = claimDivisor act nm := by
  cases act <;> cases nm <;>
    first
      | (simp only [componentFmt, Option.some.injEq, Prod.mk.injEq, ite_true,
           ite_false, if_true, if_false] at h
         obtain ⟨-, -, h3⟩ := h
         rw [← h3])
      | simp [componentFmt] at h
  all_goals rfl

theorem get_data_decodes_claimEntries
    (l : Loader) (a : Accessor) (idx : Nat)
    (bvs : List BufferView) (bufs : List Buffer) (bv : BufferView) (buf : Buffer)
    (aty : AccessorType) (act : AccessorComponentType)
    (dt : DType) (ds : Nat) (dv : ℚ) (bd : Bytes)
    (hcache : lookupA l.accessor_data_map idx = none)
    (hbvs : l.json_data.bufferViews = some bvs)
    (hbv : bvs.get? a.bufferView = some bv)
    (hbufs : l.json_data.buffers = some bufs)
    (hbuf : bufs.get? bv.buffer = some buf)
    (hat : AccessorType.ofString a.type = some aty)
    (hbd : resolveBufferData l bv buf = .ok bd)
    (hact : AccessorComponentType.ofCode a.componentType = some act)
    (hfmt : componentFmt act (isNormalized a) = some (dt, ds, dv))
    (hsuff : ∀ i < a.count, ∀ j < accessor_type_count aty,
      accessorOffset a +
        i * effectiveStride bv (accessor_type_count aty) (accessor_component_type_bytesize act) +
        j * accessor_component_type_bytesize act + ds ≤ bd.length) :
    get_data l a idx =
      .ok ({ l with accessor_data_map := l.accessor_data_map ++
               [(idx, claimEntries bd dt ds (accessor_component_type_bytesize act)
                        (accessor_type_count aty)
                        (effectiveStride bv (accessor_type_count aty)
                          (accessor_component_type_bytesize act))
                        dv (accessorOffset a) a.count)] },
           claimEntries bd dt ds (accessor_component_type_bytesize act)
             (accessor_type_count aty)
             (effectiveStride bv (accessor_type_count aty)
               (accessor_component_type_bytesize act))
             dv (accessorOffset a) a.count) := by
  have hds := componentFmt_dsize hfmt
  subst hds
  have hloop := decodeLoop_eq bd dt (accessor_component_type_bytesize act)
    (accessor_type_count aty)
    (effectiveStride bv (accessor_type_count aty) (accessor_component_type_bytesize act))
    dv (accessor_type_count_pos aty) a.count (accessorOffset a) hsuff
  simp only [get_data, hcache, hbvs, hbv, hbufs, hbuf, hat, hbd, hact, hfmt, hloop]

/-- C1: for an accessor with a supported component type (UNSIGNED_BYTE,
UNSIGNED_SHORT, UNSIGNED_INT, FLOAT) whose backing buffer bytes suffice,
`get_data` succeeds and produces exactly the sequence the claim's formula
prescribes (`claimEntries`): `count` entries, entry `i` component `j` the
little-endian value read at `byteOffset + i*stride + j*componentByteSize`
(stride = declared `byteStride` if present, else
`componentCount * componentByteSize`), divided by the claim's normalization
divisor (`claimDivisor`); a SCALAR accessor yields bare numbers and every
other type an ordered tuple preserving component order. The result is also
stored in the cache under the accessor index. -/
theorem c1_get_data_decodes_per_spec
    (l : Loader) (a : Accessor) (idx : Nat)
    (bvs : List BufferView) (bufs : List Buffer) (bv : BufferView) (buf : Buffer)
    (aty : AccessorType) (act : AccessorComponentType)
    (dt : DType) (ds : Nat) (dv : ℚ) (bd : Bytes)
    (hcache : lookupA l.accessor_data_map idx = none)
    (hbvs : l.json_data.bufferViews = some bvs)
    (hbv : bvs.get? a.bufferView = some bv)
    (hbufs : l.json_data.buffers = some bufs)
    (hbuf : bufs.get? bv.buffer = some buf)
    (hat : AccessorType.ofString a.type = some aty)
    (hbd : resolveBufferData l bv buf = .ok bd)
    (hact : AccessorComponentType.ofCode a.componentType = some act)
    (hfmt : componentFmt act (isNormalized a) = some (dt, ds, dv))
    (hsuff : ∀ i < a.count, ∀ j < accessor_type_count aty,
      accessorOffset a +
        i * effectiveStride bv (accessor_type_count aty) (accessor_component_type_bytesize act) +
        j * accessor_component_type_bytesize act + accessor_component_type_bytesize act ≤ bd.length) :
    get_data l a idx =
      .ok ({ l with accessor_data_map := l.accessor_data_map ++
               [(idx, claimEntries bd dt (accessor_component_type_bytesize act)
                        (accessor_component_type_bytesize act)
                        (accessor_type_count aty)
                        (effectiveStride bv (accessor_type_count aty)
                          (accessor_component_type_bytesize act))
                        (claimDivisor act (isNormalized a)) (accessorOffset a) a.count)] },
           claimEntries bd dt (accessor_component_type_bytesize act)
             (accessor_component_type_bytesize act)
             (accessor_type_count aty)
             (effectiveStride bv (accessor_type_count aty)
               (accessor_component_type_bytesize act))
             (claimDivisor act (isNormalized a)) (accessorOffset a) a.count) := by
  have h1 : ds = structSize dt := componentFmt_dsize hfmt
  have h2 : structSize dt = accessor_component_type_bytesize act :=
    componentFmt_struct_bytesize hfmt
  have h3 : dv = claimDivisor act (isNormalized a) := componentFmt_divisor hfmt
  have hds : ds = accessor_component_type_bytesize act := h1.trans h2
  have hmain := get_data_decodes_claimEntries l a idx bvs bufs bv buf aty act dt ds dv bd
    hcache hbvs hbv hbufs hbuf hat hbd hact hfmt
    (fun i hi j hj => by rw [hds]; exact hsuff i hi j hj)
  rw [hmain, hds, h3]

theorem get_data_ok_inv {l l' : Loader} {a : Accessor} {idx : Nat} {d : List Entry}
    (h : get_data l a idx = .ok (l', d)) :
    (lookupA l.accessor_data_map idx = some d ∧ l' = l) ∨
    (lookupA l.accessor_data_map idx = none ∧
      l' = { l with accessor_data_map := l.accessor_data_map ++ [(idx, d)] }) := by
  simp only [get_data] at h
  repeat' split at h
  all_goals
    first
      | exact Except.noConfusion h
      | (simp only [Except.ok.injEq, Prod.mk.injEq] at h
         obtain ⟨h1, h2⟩ := h
         subst h2
         first
           | exact Or.inl ⟨by assumption, h1.symm⟩
           | exact Or.inr ⟨by assumption, h1.symm⟩)

/-- C2: `get_data` is memoized per accessor index — after any successful call
that returned loader state `l'` and data `d` for index `idx`, every further
`get_data` call on `l'` with the same index returns exactly `(l', d)` again
(the cached sequence, with no state change and no buffer access), regardless
of the accessor object passed, which may differ from the first one. -/
theorem c2_get_data_memoized_by_index (l l' : Loader) (a a' : Accessor) (idx : Nat)
    (d : List Entry) (h : get_data l a idx = .ok (l', d)) :
    get_data l' a' idx = .ok (l', d) := by
  rcases get_data_ok_inv h with ⟨hc, rfl⟩ | ⟨hc, rfl⟩
  · unfold get_data
    rw [hc]
  · have hl : lookupA (l.accessor_data_map ++ [(idx, d)]) idx = some d :=
      lookupA_append_self _ _ _ hc
    unfold get_data
    rw [show ({ l with accessor_data_map := l.accessor_data_map ++ [(idx, d)] } : Loader).accessor_data_map
          = l.accessor_data_map ++ [(idx, d)] from rfl, hl]

/-- C10: a normally-returning `get_data` call changes loader state only by
adding the decoded sequence for the requested index to the accessor-data
cache: the JSON document, root directory, container kind, every assembled
collection and the filesystem environment are unchanged, the requested index
now maps to the returned data, and every other cache entry is untouched. -/
theorem c10_get_data_frame (l l' : Loader) (a : Accessor) (idx : Nat) (d : List Entry)
    (h : get_data l a idx = .ok (l', d)) :
    l'.json_data = l.json_data ∧ l'.root_dir = l.root_dir ∧ l'.binary = l.binary ∧
    l'.asset = l.asset ∧ l'.images = l.images ∧ l'.materials = l.materials ∧
    l'.meshes = l.meshes ∧ l'.nodes = l.nodes ∧ l'.skins = l.skins ∧
    l'.scenes = l.scenes ∧ l'.main_scene = l.main_scene ∧
    l'.animations = l.animations ∧ l'.files = l.files ∧
    lookupA l'.accessor_data_map idx = some d ∧
    (∀ j, j ≠ idx → lookupA l'.accessor_data_map j = lookupA l.accessor_data_map j) := by
  rcases get_data_ok_inv h with ⟨hc, rfl⟩ | ⟨hc, rfl⟩
  · exact ⟨rfl, rfl, rfl, rfl, rfl, rfl, rfl, rfl, rfl, rfl, rfl, rfl, rfl, hc,
      fun j _ => rfl⟩
  · exact ⟨rfl, rfl, rfl, rfl, rfl, rfl, rfl, rfl, rfl, rfl, rfl, rfl, rfl,
      lookupA_append_self _ _ _ hc,
      fun j hj => lookupA_append_other _ _ _ _ hj⟩

/-- Modelled from the spec's error taxonomy (§4.3 step 2, §7): the error class
`UnsupportedComponentTypeError` covers both the decoder's explicit raise on
`BYTE`/`SHORT` and the enum-constructor failure on values outside the
recognized enumeration. -/
def isUnsupportedComponentTypeError (e : Err) : Prop :=
  e = .unsupportedComponentType ∨ e = .badEnumValue "AccessorComponentType"

/-- C5: an accessor whose `componentType` is BYTE (5120) or SHORT (5122), or
any value outside the recognized enumeration, makes `get_data` fail with the
spec's `UnsupportedComponentTypeError` — no data is decoded. -/
theorem c5_unsupported_component_type_fails
    (l : Loader) (a : Accessor) (idx : Nat)
    (bvs : List BufferView) (bufs : List Buffer) (bv : BufferView) (buf : Buffer)
    (aty : AccessorType) (bd : Bytes)
    (hcache : lookupA l.accessor_data_map idx = none)
    (hbvs : l.json_data.bufferViews = some bvs)
    (hbv : bvs.get? a.bufferView = some bv)
    (hbufs : l.json_data.buffers = some bufs)
    (hbuf : bufs.get? bv.buffer = some buf)
    (hat : AccessorType.ofString a.type = some aty)
    (hbd : resolveBufferData l bv buf = .ok bd)
    (hct : a.componentType = 5120 ∨ a.componentType = 5122 ∨
      AccessorComponentType.ofCode a.componentType = none) :
    ∃ e, get_data l a idx = .error e ∧ isUnsupportedComponentTypeError e := by
  rcases hct with hct | hct | hct
  · refine ⟨.unsupportedComponentType, ?_, Or.inl rfl⟩
    have h1 : AccessorComponentType.ofCode a.componentType = some .BYTE := by rw [hct]; rfl
    simp only [get_data, hcache, hbvs, hbv, hbufs, hbuf, hat, hbd, h1, componentFmt]
  · refine ⟨.unsupportedComponentType, ?_, Or.inl rfl⟩
    have h1 : AccessorComponentType.ofCode a.componentType = some .SHORT := by rw [hct]; rfl
    simp only [get_data, hcache, hbvs, hbv, hbufs, hbuf, hat, hbd, h1, componentFmt]
  · refine ⟨.badEnumValue "AccessorComponentType", ?_, Or.inr rfl⟩
    simp only [get_data, hcache, hbvs, hbv, hbufs, hbuf, hat, hbd, hct]

/-- C9: on a loader built from the text container form, `get_data` on an
accessor whose buffer entry lacks the `uri` key fails with the `uri` key
lookup error, before any decoding — for any component type, count and buffer
contents. -/
theorem c9_text_form_requires_uri
    (l : Loader) (a : Accessor) (idx : Nat)
    (bvs : List BufferView) (bufs : List Buffer) (bv : BufferView) (buf : Buffer)
    (aty : AccessorType)
    (hcache : lookupA l.accessor_data_map idx = none)
    (hbin : l.binary = false)
    (hbvs : l.json_data.bufferViews = some bvs)
    (hbv : bvs.get? a.bufferView = some bv)
    (hbufs : l.json_data.buffers = some bufs)
    (hbuf : bufs.get? bv.buffer = some buf)
    (hat : AccessorType.ofString a.type = some aty)
    (huri : buf.uri = none) :
    get_data l a idx = .error (.keyError "uri") := by
  have hbd : resolveBufferData l bv buf = .error (.keyError "uri") := by
    simp [resolveBufferData, hbin, huri]
  simp only [get_data, hcache, hbvs, hbv, hbufs, hbuf, hat, hbd]

/-- Witness fixture: a binary-form loader holding raw bytes `[255, 0, 128]`
behind one buffer view. -/
def wBV : BufferView := { buffer := 0, byteOffset := none, byteLength := 3, byteStride := none }

/-- Witness fixture: the bound buffer with bytes `[255, 0, 128]`. -/
def wBuf : Buffer := { byteLength := 3, uri := none, data := some [255, 0, 128] }

/-- Witness fixture: the loader state. -/
def wLoader : Loader :=
  { root_dir := "", binary := true, accessor_data_map := [],
    json_data := { buffers := some [wBuf], bufferViews := some [wBV] } }

/-- Witness fixture: a VEC3 normalized UNSIGNED_BYTE accessor of count 1. -/
def wAcc : Accessor :=
  { bufferView := 0, byteOffset := none, componentType := 5121, type := "VEC3",
    count := 1, normalized := some true }

/-- Witness fixture: the decoded tuple the claim prescribes for the bytes
`[255, 0, 128]`. -/
def wData : List Entry := [Entry.tuple [.num 1, .num 0, .num (128 / 255)]]

/-- Witness for C1 at the claim's own example: the VEC3 normalized
UNSIGNED_BYTE accessor over raw bytes `[255, 0, 128]` decodes to the tuple
`(1.0, 0.0, 128/255)` and is cached under index 0. -/
theorem c1_witness :
    get_data wLoader wAcc 0 =
      .ok ({ wLoader with accessor_data_map := [(0, wData)] }, wData) := by
  have h := c1_get_data_decodes_per_spec wLoader wAcc 0 [wBV] [wBuf] wBV wBuf
    .VEC3 .UNSIGNED_BYTE .B 1 255 [255, 0, 128]
    rfl rfl rfl rfl rfl rfl rfl rfl rfl (by decide)
  rw [h]
  have hr : List.range 3 = [0, 1, 2] := rfl
  have hr1 : List.range 1 = [0] := rfl
  norm_num [claimEntries, claimComponent, rawValue, GNum.divQ, structSize, leVal,
    wData, hr, hr1, effectiveStride, accessorOffset, wBV, wAcc, wLoader,
    accessor_type_count, accessor_component_type_bytesize, claimDivisor, isNormalized]

/-- Witness fixture for C2: a loader whose cache already holds data for
index 0 (as left behind by a first successful call). -/
def c2Data : List Entry := [Entry.scalar (GNum.num 1)]

/-- Witness fixture for C2: the loader state with the cached entry. -/
def c2Loader : Loader :=
  { root_dir := "", binary := true, accessor_data_map := [(0, c2Data)],
    json_data := {} }

/-- Witness fixture for C2: an accessor wholly different from `wAcc`. -/
def c2OtherAcc : Accessor :=
  { bufferView := 7, byteOffset := some 5, componentType := 5126, type := "MAT4",
    count := 99, normalized := none }

/-- Witness for C2: after a call that returned `(c2Loader, c2Data)` for
index 0, a second call with a completely different accessor object and the
same index returns the identical cached result. -/
theorem c2_witness : get_data c2Loader c2OtherAcc 0 = .ok (c2Loader, c2Data) :=
  c2_get_data_memoized_by_index c2Loader c2Loader wAcc c2OtherAcc 0 c2Data rfl

/-- Witness fixture for C10: a count-0 accessor over the `wLoader` fixture,
whose decode succeeds with the empty sequence. -/
def c10Acc : Accessor :=
  { bufferView := 0, byteOffset := none, componentType := 5121, type := "VEC3",
    count := 0, normalized := none }

/-- Witness for C10 via the cache-miss path exercised on `wLoader`: the call
leaves every non-cache field unchanged and adds exactly the entry for
index 0. -/
theorem c10_witness :
    ({ wLoader with accessor_data_map := [(0, [])] } : Loader).json_data = wLoader.json_data ∧
    lookupA ({ wLoader with accessor_data_map := [(0, [])] } : Loader).accessor_data_map 0 = some [] ∧
    (∀ j, j ≠ 0 → lookupA ({ wLoader with accessor_data_map := [(0, [])] } : Loader).accessor_data_map j = lookupA wLoader.accessor_data_map j) := by
  have h := c10_get_data_frame wLoader { wLoader with accessor_data_map := [(0, [])] }
    c10Acc 0 [] rfl
  exact ⟨h.1, h.2.2.2.2.2.2.2.2.2.2.2.2.2.1, h.2.2.2.2.2.2.2.2.2.2.2.2.2.2⟩

/-- Witness for C5: `componentType = 5120` (BYTE) on the `wLoader` fixture
fails with the spec's unsupported-component-type error. -/
theorem c5_witness :
    ∃ e, get_data wLoader { wAcc with componentType := 5120 } 0 = .error e ∧
      isUnsupportedComponentTypeError e :=
  c5_unsupported_component_type_fails wLoader { wAcc with componentType := 5120 } 0
    [wBV] [wBuf] wBV wBuf .VEC3 [255, 0, 128]
    rfl rfl rfl rfl rfl rfl rfl (Or.inl rfl)

/-- Witness fixture for C9: a text-form loader whose buffer entry lacks
`uri`. -/
def c9Loader : Loader :=
  { root_dir := "", binary := false, accessor_data_map := [],
    json_data := { buffers := some [{ byteLength := 3, uri := none, data := none }],
                   bufferViews := some [wBV] } }

/-- Witness for C9: `get_data` on the uri-less text-form buffer fails with
the `uri` key lookup error. -/
theorem c9_witness : get_data c9Loader wAcc 0 = .error (.keyError "uri") :=
  c9_text_form_requires_uri c9Loader wAcc 0 [wBV]
    [{ byteLength := 3, uri := none, data := none }] wBV
    { byteLength := 3, uri := none, data := none } .VEC3
    rfl rfl rfl rfl rfl rfl rfl rfl

theorem enc32_length (n : Nat) : (enc32 n).length = 4 := rfl

theorem leVal_enc32 (n : Nat) (h : n < 4294967296) : leVal (enc32 n) = n := by
  simp [enc32, leVal]
  omega

theorem demuxLoop_append_chunk (parse : Bytes → Option JsonData)
    (files : List (String × Bytes)) (root_dir : String) (c : Chunk) (tail : Bytes)
    (total fsize : Nat) (st : Option JsonData)
    (hp : c.payload.length < 4294967296) (ht : c.ctype < 4294967296) :
    demuxLoop parse files root_dir (encodeChunk c ++ tail) total fsize st =
      if c.ctype = JSON_CHUNK then
        match parse c.payload with
        | none => .error .jsonDecodeError
        | some jd =>
          demuxLoop parse files root_dir tail (total + 8 + c.payload.length) fsize (some jd)
      else if c.ctype = BINARY_CHUNK then
        match bindBinaryChunk files root_dir st c.payload with
        | .error e => .error e
        | .ok st' =>
          demuxLoop parse files root_dir tail (total + 8 + c.payload.length) fsize st'
      else .error .invalidChunkType := by
  have e1 : encodeChunk c ++ tail =
      enc32 c.payload.length ++ (enc32 c.ctype ++ (c.payload ++ tail)) := by
    simp [encodeChunk, List.append_assoc]
  have hne : enc32 c.payload.length ++ (enc32 c.ctype ++ (c.payload ++ tail)) ≠ [] := by
    simp [enc32]
  have hlen : (enc32 c.payload.length ++ (enc32 c.ctype ++ (c.payload ++ tail))).length =
      8 + c.payload.length + tail.length := by
    simp [enc32]
    omega
  have h8 : ¬ (enc32 c.payload.length ++ (enc32 c.ctype ++ (c.payload ++ tail))).length < 8 := by
    rw [hlen]; omega
  have htake4 : (enc32 c.payload.length ++ (enc32 c.ctype ++ (c.payload ++ tail))).take 4 =
      enc32 c.payload.length := List.take_left' (enc32_length _)
  have hdrop4 : (enc32 c.payload.length ++ (enc32 c.ctype ++ (c.payload ++ tail))).drop 4 =
      enc32 c.ctype ++ (c.payload ++ tail) := List.drop_left' (enc32_length _)
  have hregroup : enc32 c.payload.length ++ (enc32 c.ctype ++ (c.payload ++ tail)) =
      (enc32 c.payload.length ++ enc32 c.ctype) ++ (c.payload ++ tail) :=
    (List.append_assoc _ _ _).symm
  have hlen8 : (enc32 c.payload.length ++ enc32 c.ctype).length = 8 := by simp [enc32]
  have hdrop8 : (enc32 c.payload.length ++ (enc32 c.ctype ++ (c.payload ++ tail))).drop 8 =
      c.payload ++ tail := by
    rw [hregroup]; exact List.drop_left' hlen8
  rw [e1, demuxLoop]
  rw [if_neg hne, if_neg h8]
  simp only [htake4, hdrop4, hdrop8, List.take_left' (enc32_length _),
    leVal_enc32 _ hp, leVal_enc32 _ ht, List.take_left' rfl, List.drop_left' rfl]

theorem demuxLoop_encodeChunks (parse : Bytes → Option JsonData)
    (files : List (String × Bytes)) (root_dir : String) (cs : List Chunk) :
    ∀ (st : Option JsonData) (total fsize : Nat),
      (∀ c ∈ cs, c.payload.length < 4294967296 ∧ c.ctype < 4294967296) →
      demuxLoop parse files root_dir (encodeChunks cs) total fsize st =
        (match runChunks parse files root_dir st cs with
         | .error e => .error e
         | .ok st' =>
           if total + chunksByteLen cs = fsize then .ok st'
           else .error .truncatedContainer) := by
  induction cs with
  | nil =>
    intro st total fsize _
    by_cases h : total = fsize <;>
      simp [encodeChunks, demuxLoop, runChunks, chunksByteLen, h]
  | cons c cs ih =>
    intro st total fsize hb
    have hc := hb c (List.mem_cons_self _ _)
    have hcs := fun c' hc' => hb c' (List.mem_cons_of_mem _ hc')
    have harith : total + 8 + c.payload.length + chunksByteLen cs =
        total + chunksByteLen (c :: cs) := by
      simp [chunksByteLen]; ring
    rw [show encodeChunks (c :: cs) = encodeChunk c ++ encodeChunks cs from rfl]
    rw [demuxLoop_append_chunk parse files root_dir c (encodeChunks cs) total fsize st hc.1 hc.2]
    by_cases hj : c.ctype = JSON_CHUNK
    · rw [if_pos hj]
      rw [show runChunks parse files root_dir st (c :: cs) =
            (if c.ctype = JSON_CHUNK then
              match parse c.payload with
              | none => .error .jsonDecodeError
              | some jd => runChunks parse files root_dir (some jd) cs
            else if c.ctype = BINARY_CHUNK then
              match bindBinaryChunk files root_dir st c.payload with
              | .error e => .error e
              | .ok st' => runChunks parse files root_dir st' cs
            else .error .invalidChunkType) from rfl, if_pos hj]
      cases hparse : parse c.payload with
      | none => rfl
      | some jd =>
        have hih := ih (some jd) (total + 8 + c.payload.length) fsize hcs
        simp only [hih, harith]
    · by_cases hbc : c.ctype = BINARY_CHUNK
      · rw [if_neg hj, if_pos hbc]
        rw [show runChunks parse files root_dir st (c :: cs) =
              (if c.ctype = JSON_CHUNK then
                match parse c.payload with
                | none => .error .jsonDecodeError
                | some jd => runChunks parse files root_dir (some jd) cs
              else if c.ctype = BINARY_CHUNK then
                match bindBinaryChunk files root_dir st c.payload with
                | .error e => .error e
                | .ok st' => runChunks parse files root_dir st' cs
              else .error .invalidChunkType) from rfl, if_neg hj, if_pos hbc]
        cases hbind : bindBinaryChunk files root_dir st c.payload with
        | error e => rfl
        | ok st' =>
          have hih := ih st' (total + 8 + c.payload.length) fsize hcs
          simp only [hih, harith]
      · rw [if_neg hj, if_neg hbc]
        rw [show runChunks parse files root_dir st (c :: cs) =
              (if c.ctype = JSON_CHUNK then
                match parse c.payload with
                | none => .error .jsonDecodeError
                | some jd => runChunks parse files root_dir (some jd) cs
              else if c.ctype = BINARY_CHUNK then
                match bindBinaryChunk files root_dir st c.payload with
                | .error e => .error e
                | .ok st' => runChunks parse files root_dir st' cs
              else .error .invalidChunkType) from rfl, if_neg hj, if_neg hbc]

theorem demuxGlb_mkGlb (parse : Bytes → Option JsonData)
    (files : List (String × Bytes)) (root_dir : String) (fsize : Nat) (cs : List Chunk)
    (hf : fsize < 4294967296)
    (hb : ∀ c ∈ cs, c.payload.length < 4294967296 ∧ c.ctype < 4294967296) :
    demuxGlb parse files root_dir (mkGlb fsize cs) =
      (match runChunks parse files root_dir none cs with
       | .error e => .error e
       | .ok st' =>
         if 12 + chunksByteLen cs = fsize then .ok st'
         else .error .truncatedContainer) := by
  have e1 : mkGlb fsize cs =
      enc32 MAGIC ++ (enc32 2 ++ (enc32 fsize ++ encodeChunks cs)) := by
    simp [mkGlb, List.append_assoc]
  have h12 : ¬ (enc32 MAGIC ++ (enc32 2 ++ (enc32 fsize ++ encodeChunks cs))).length < 12 := by
    simp [enc32]
  have htakeM : (enc32 MAGIC ++ (enc32 2 ++ (enc32 fsize ++ encodeChunks cs))).take 4 =
      enc32 MAGIC := List.take_left' (enc32_length _)
  have hdropM : (enc32 MAGIC ++ (enc32 2 ++ (enc32 fsize ++ encodeChunks cs))).drop 4 =
      enc32 2 ++ (enc32 fsize ++ encodeChunks cs) := List.drop_left' (enc32_length _)
  have hdrop8 : (enc32 MAGIC ++ (enc32 2 ++ (enc32 fsize ++ encodeChunks cs))).drop 8 =
      enc32 fsize ++ encodeChunks cs := by
    rw [show enc32 MAGIC ++ (enc32 2 ++ (enc32 fsize ++ encodeChunks cs)) =
          (enc32 MAGIC ++ enc32 2) ++ (enc32 fsize ++ encodeChunks cs) from
        (List.append_assoc _ _ _).symm]
    exact List.drop_left' (by simp [enc32])
  have hdrop12 : (enc32 MAGIC ++ (enc32 2 ++ (enc32 fsize ++ encodeChunks cs))).drop 12 =
      encodeChunks cs := by
    rw [show enc32 MAGIC ++ (enc32 2 ++ (enc32 fsize ++ encodeChunks cs)) =
          ((enc32 MAGIC ++ enc32 2) ++ enc32 fsize) ++ encodeChunks cs from by
        simp [List.append_assoc]]
    exact List.drop_left' (by simp [enc32])
  rw [e1]
  unfold demuxGlb
  rw [if_neg h12]
  simp only [htakeM, hdropM, hdrop8, hdrop12, List.take_left' (enc32_length _),
    leVal_enc32 MAGIC (by norm_num [MAGIC]), leVal_enc32 2 (by norm_num),
    leVal_enc32 fsize hf]
  rw [demuxLoop_encodeChunks parse files root_dir cs none 12 fsize hb]
  norm_num

theorem demuxGlb_mkGlb_run_ok (parse : Bytes → Option JsonData)
    (files : List (String × Bytes)) (root_dir : String) (fsize : Nat) (cs : List Chunk)
    (st' : Option JsonData)
    (hf : fsize < 4294967296)
    (hb : ∀ c ∈ cs, c.payload.length < 4294967296 ∧ c.ctype < 4294967296)
    (hrun : runChunks parse files root_dir none cs = .ok st')
    (hsz : 12 + chunksByteLen cs = fsize) :
    demuxGlb parse files root_dir (mkGlb fsize cs) = .ok st' := by
  rw [demuxGlb_mkGlb parse files root_dir fsize cs hf hb, hrun]
  exact if_pos hsz

theorem demuxGlb_mkGlb_run_err (parse : Bytes → Option JsonData)
    (files : List (String × Bytes)) (root_dir : String) (fsize : Nat) (cs : List Chunk)
    (e : Err)
    (hf : fsize < 4294967296)
    (hb : ∀ c ∈ cs, c.payload.length < 4294967296 ∧ c.ctype < 4294967296)
    (hrun : runChunks parse files root_dir none cs = .error e) :
    demuxGlb parse files root_dir (mkGlb fsize cs) = .error e := by
  rw [demuxGlb_mkGlb parse files root_dir fsize cs hf hb, hrun]

/-- C3: a `.glb` whose first 32-bit word is not the magic constant does NOT
make construction fail with a format error at header validation — the source
has no `else` branch for the magic test, so the demux phase silently skips
every chunk, binds no JSON document, and construction only fails later, when
initialization touches the never-assigned `json_data` attribute. -/
theorem c3_bad_magic_attribute_error (parse : Bytes → Option JsonData)
    (files : List (String × Bytes)) (root_dir : String) (bytes : Bytes)
    (h12 : ¬ bytes.length < 12) (hm : leVal (bytes.take 4) ≠ MAGIC) :
    glbConstruct parse files root_dir bytes = .error (.attributeError "json_data") := by
  unfold glbConstruct demuxGlb
  simp [h12, hm]

/-- Witness for C3: a 12-byte container of zeros (magic word 0) makes
construction fail with the late attribute error, not a format error. -/
theorem c3_witness :
    ¬ ([0, 0, 0, 0, 0, 0, 0, 0, 0, 0, 0, 0] : Bytes).length < 12 ∧
    leVal (([0, 0, 0, 0, 0, 0, 0, 0, 0, 0, 0, 0] : Bytes).take 4) ≠ MAGIC ∧
    glbConstruct (fun _ => none) [] "" [0, 0, 0, 0, 0, 0, 0, 0, 0, 0, 0, 0] =
      .error (.attributeError "json_data") :=
  ⟨by decide, by decide,
    c3_bad_magic_attribute_error (fun _ => none) [] "" _ (by decide) (by decide)⟩

/-- C4: a binary container whose declared total byte length differs from the
bytes actually consumed (12 for the header plus 8 + chunkLength per chunk)
fails with the truncation error when the chunk stream is exhausted (given the
chunks themselves process without error). -/
theorem c4_mismatched_total_fails_truncated (parse : Bytes → Option JsonData)
    (files : List (String × Bytes)) (root_dir : String) (cs : List Chunk)
    (st' : Option JsonData) (fsize : Nat)
    (hf : fsize < 4294967296)
    (hb : ∀ c ∈ cs, c.payload.length < 4294967296 ∧ c.ctype < 4294967296)
    (hrun : runChunks parse files root_dir none cs = .ok st')
    (hne : fsize ≠ 12 + chunksByteLen cs) :
    demuxGlb parse files root_dir (mkGlb fsize cs) = .error .truncatedContainer := by
  rw [demuxGlb_mkGlb parse files root_dir fsize cs hf hb, hrun]
  simp [Ne.symm hne]

/-- Witness for C4: an empty chunk list with a declared size of 13 (actual
consumption 12) fails with the truncation error. -/
theorem c4_witness :
    (13 : Nat) ≠ 12 + chunksByteLen [] ∧
    demuxGlb (fun _ => none) [] "" (mkGlb 13 []) = .error .truncatedContainer :=
  ⟨by decide,
    c4_mismatched_total_fails_truncated (fun _ => none) [] "" [] none 13
      (by decide) (by decide) rfl (by decide)⟩

/-- Counterexample fixture for C6: a JSON document with one uri-less buffer. -/
def c6Json : JsonData := { buffers := some [{ byteLength := 3, uri := none, data := none }] }

/-- Counterexample fixture for C6: a JSON parser recognizing payload
`[1, 2, 3]`. -/
def c6Parse : Bytes → Option JsonData := fun bs => if bs = [1, 2, 3] then some c6Json else none

/-- Counterexample for C6: a well-formed container (correct total size,
exactly one JSON chunk and one binary chunk) whose binary chunk precedes the
JSON chunk does NOT demux successfully — binding the binary chunk needs
`self.json_data`, which does not exist yet, so demuxing dies with an
attribute error. -/
theorem c6_counterexample :
    demuxGlb c6Parse [] "" (mkGlb 34 [⟨BINARY_CHUNK, [9, 9, 9]⟩, ⟨JSON_CHUNK, [1, 2, 3]⟩]) =
      .error (.attributeError "json_data") := by
  rw [demuxGlb_mkGlb c6Parse [] "" 34 [⟨BINARY_CHUNK, [9, 9, 9]⟩, ⟨JSON_CHUNK, [1, 2, 3]⟩]
    (by decide) (by decide)]
  rfl

/-- C6 (amended): the demuxer does dispatch on each chunk's type tag, but it
is not order-independent: a well-formed container with one JSON and one
binary chunk demuxes successfully when the JSON chunk comes first — binding
the parsed document and the binary payload (truncated to the buffer's
declared byteLength) as buffer 0's data — while the same chunks with the
binary chunk first fail with an attribute error because the JSON document is
not yet bound. -/
theorem c6_amended_chunk_order
    (parse : Bytes → Option JsonData) (files : List (String × Bytes)) (root_dir : String)
    (jb pay : Bytes) (j : JsonData) (bufs : List Buffer) (b0 : Buffer) (fsize : Nat)
    (hparse : parse jb = some j)
    (hjb : jb.length < 4294967296) (hpay : pay.length < 4294967296)
    (hf : fsize < 4294967296)
    (hbufs : j.buffers = some bufs)
    (hb0 : bufs.get? 0 = some b0)
    (huri : b0.uri.getD "" = "")
    (hsize : fsize = 12 + (8 + jb.length) + (8 + pay.length)) :
    demuxGlb parse files root_dir (mkGlb fsize [⟨JSON_CHUNK, jb⟩, ⟨BINARY_CHUNK, pay⟩]) =
      .ok (some { j with buffers := some (bufs.set 0 { b0 with data := some (pay.take b0.byteLength) }) }) ∧
    demuxGlb parse files root_dir (mkGlb fsize [⟨BINARY_CHUNK, pay⟩, ⟨JSON_CHUNK, jb⟩]) =
      .error (.attributeError "json_data") := by
  have hbounds1 : ∀ c ∈ [(⟨JSON_CHUNK, jb⟩ : Chunk), ⟨BINARY_CHUNK, pay⟩],
      c.payload.length < 4294967296 ∧ c.ctype < 4294967296 := by
    intro c hcm
    simp only [List.mem_cons, List.not_mem_nil, or_false] at hcm
    rcases hcm with rfl | rfl
    · exact ⟨hjb, by norm_num [JSON_CHUNK]⟩
    · exact ⟨hpay, by norm_num [BINARY_CHUNK]⟩
  have hbounds2 : ∀ c ∈ [(⟨BINARY_CHUNK, pay⟩ : Chunk), ⟨JSON_CHUNK, jb⟩],
      c.payload.length < 4294967296 ∧ c.ctype < 4294967296 := by
    intro c hcm
    simp only [List.mem_cons, List.not_mem_nil, or_false] at hcm
    rcases hcm with rfl | rfl
    · exact ⟨hpay, by norm_num [BINARY_CHUNK]⟩
    · exact ⟨hjb, by norm_num [JSON_CHUNK]⟩
  have hJJ : (JSON_CHUNK = JSON_CHUNK) = True := by simp
  have hBJ : (BINARY_CHUNK = JSON_CHUNK) = False := by norm_num [BINARY_CHUNK, JSON_CHUNK]
  have hBB : (BINARY_CHUNK = BINARY_CHUNK) = True := by simp
  have hss : ((("" : String) ≠ "") = False) := by simp
  constructor
  · have hrun : runChunks parse files root_dir none [⟨JSON_CHUNK, jb⟩, ⟨BINARY_CHUNK, pay⟩] =
        .ok (some { j with buffers := some (bufs.set 0 { b0 with data := some (pay.take b0.byteLength) }) }) := by
      simp only [runChunks, hJJ, hBJ, hBB, if_true, if_false, ite_true, ite_false,
        hparse, bindBinaryChunk, hbufs, hb0, huri, hss]
    have hcond : 12 + chunksByteLen [(⟨JSON_CHUNK, jb⟩ : Chunk), ⟨BINARY_CHUNK, pay⟩] = fsize := by
      simp only [chunksByteLen]
      omega
    exact demuxGlb_mkGlb_run_ok parse files root_dir fsize _ _ hf hbounds1 hrun hcond
  · have hne2 : ¬ (BINARY_CHUNK = JSON_CHUNK) := by norm_num [BINARY_CHUNK, JSON_CHUNK]
    have hrun2 : runChunks parse files root_dir none [⟨BINARY_CHUNK, pay⟩, ⟨JSON_CHUNK, jb⟩] =
        .error (.attributeError "json_data") := by
      simp only [runChunks]
      rw [if_neg hne2]
      simp only [ite_true]
      rfl
    exact demuxGlb_mkGlb_run_err parse files root_dir fsize _ _ hf hbounds2 hrun2

/-- Witness for C6 (amended) at the counterexample fixture: JSON-first
succeeds binding payload `[9, 9, 9]` to buffer 0; binary-first fails. -/
theorem c6_witness :
    demuxGlb c6Parse [] "" (mkGlb 34 [⟨JSON_CHUNK, [1, 2, 3]⟩, ⟨BINARY_CHUNK, [9, 9, 9]⟩]) =
      .ok (some { c6Json with buffers := some [{ byteLength := 3, uri := none, data := some [9, 9, 9] }] }) ∧
    demuxGlb c6Parse [] "" (mkGlb 34 [⟨BINARY_CHUNK, [9, 9, 9]⟩, ⟨JSON_CHUNK, [1, 2, 3]⟩]) =
      .error (.attributeError "json_data") := by
  have h := c6_amended_chunk_order c6Parse [] "" [1, 2, 3] [9, 9, 9] c6Json
    [{ byteLength := 3, uri := none, data := none }]
    { byteLength := 3, uri := none, data := none } 34
    (by decide) (by decide) (by decide) (by decide) rfl rfl rfl (by decide)
  exact h

/-- Fixture for C7: a binary loader whose buffer view holds only 2 bytes. -/
def c7Loader : Loader :=
  { root_dir := "", binary := true, accessor_data_map := [],
    json_data := { buffers := some [{ byteLength := 2, uri := none, data := some [1, 2] }],
                   bufferViews := some [{ buffer := 0, byteOffset := none, byteLength := 2, byteStride := none }] } }

/-- Fixture for C7: a SCALAR UNSIGNED_BYTE accessor declaring 5 entries over
those 2 bytes. -/
def c7Acc : Accessor :=
  { bufferView := 0, byteOffset := none, componentType := 5121, type := "SCALAR",
    count := 5, normalized := none }

/-- C7: the code has no buffer-underrun guard. An accessor whose declared
geometry (count × stride from its byteOffset) exceeds the available bytes
does not fail with the spec's `BufferUnderrunError`: the decode loop reaches
a short window and dies with a bare `struct.error` (and when the underlying
blob extends past the view's `byteLength`, the binary path reads beyond the
view with no error at all, since that path never consults `byteLength`).
Concretely, 5 declared entries over 2 available bytes fail with
`struct.error` at entry 2. -/
theorem c7_overrun_is_struct_error : get_data c7Loader c7Acc 0 = .error .structError := rfl

theorem mkScenes_get? (es : List SceneEntry) :
    ∀ i k, (mkScenes i es).get? k = (es.get? k).map (fun e => Scene.mk (i + k) e) := by
  induction es with
  | nil => intro i k; simp [mkScenes]
  | cons e es ih =>
    intro i k
    cases k with
    | zero => simp [mkScenes]
    | succ k =>
      have harith : i + 1 + k = i + (k + 1) := by omega
      have hih := ih (i + 1) k
      simpa [mkScenes, harith] using hih

/-- C8 (amended): `get_main_scene` returns the scene at the JSON top-level
`scene` index when that key is present (and in range), the scene at index 0
when the key is absent but the scenes list is nonempty, and none when the
`scenes` key is absent; however, when the `scenes` key is present with an
empty list, initialization raises an index error instead of yielding none
(see the counterexample). -/
theorem c8_main_scene_selection (l : Loader)
    (hinit : initialize_scenes l.json_data = .ok (l.scenes, l.main_scene)) :
    (l.json_data.scenes = none → get_main_scene l = none) ∧
    (∀ es e, l.json_data.scenes = some es → l.json_data.scene = none →
      es.get? 0 = some e → get_main_scene l = some (Scene.mk 0 e)) ∧
    (∀ es s e, l.json_data.scenes = some es → l.json_data.scene = some s →
      es.get? s = some e → get_main_scene l = some (Scene.mk s e)) := by
  refine ⟨?_, ?_, ?_⟩
  · intro h
    simp only [initialize_scenes, h] at hinit
    simp only [Except.ok.injEq, Prod.mk.injEq] at hinit
    unfold get_main_scene
    exact hinit.2.symm
  · intro es e hes hsc hget
    simp only [initialize_scenes, hes, hsc] at hinit
    rw [mkScenes_get? es 0 0, hget] at hinit
    simp only [Option.map_some', Nat.zero_add, Except.ok.injEq, Prod.mk.injEq] at hinit
    unfold get_main_scene
    exact hinit.2.symm
  · intro es s e hes hsc hget
    simp only [initialize_scenes, hes, hsc] at hinit
    rw [mkScenes_get? es 0 s, hget] at hinit
    simp only [Option.map_some', Nat.zero_add, Except.ok.injEq, Prod.mk.injEq] at hinit
    unfold get_main_scene
    exact hinit.2.symm

/-- Counterexample for C8: with `"scenes": []` present (so no scenes exist)
and no `"scene"` key, the claim demands that the main scene be none without
raising; instead scene initialization indexes `scenes[0]` on the empty list
and raises `IndexError`, so no loader state with a none main scene is ever
produced. -/
theorem c8_counterexample :
    initialize_scenes { scenes := some [], scene := none } = .error .indexError := rfl

/-- Witness fixture for C8: a loader over `scenes=[{nodes:[0]},{nodes:[1]}]`
with `"scene": 1`, initialized exactly as `_initialize_scenes` does. -/
def c8Loader : Loader :=
  { root_dir := "", binary := false, accessor_data_map := [],
    json_data := { scenes := some [⟨[0]⟩, ⟨[1]⟩], scene := some 1 },
    scenes := [Scene.mk 0 ⟨[0]⟩, Scene.mk 1 ⟨[1]⟩],
    main_scene := some (Scene.mk 1 ⟨[1]⟩) }

/-- Witness for C8: on the two-scene fixture with `"scene": 1`,
`get_main_scene` returns scene index 1. -/
theorem c8_witness : get_main_scene c8Loader = some (Scene.mk 1 ⟨[1]⟩) :=
  (c8_main_scene_selection c8Loader rfl).2.2 [⟨[0]⟩, ⟨[1]⟩] 1 ⟨[1]⟩ rfl rfl rfl

end Gltf
